import Mathlib

/-!
# A verification development for the rbson BSON value model and serde bridge

This file gives a shallow embedding, in Lean 4, of the decode direction of the
rbson crate: the owned `Bson` value model, the generic visitor-dispatch bridge
(`Deserializer` / `BsonVisitor` in `src/de/serde.rs`), the extended-JSON marker
decoder, the seq/map sub-bridges, and the restricted raw visitor
(`RawBsonVisitor` in `src/raw/bson.rs`).  Pure Rust functions become Lean
functions; fallible code returns `Except`.  Machine integers are modelled as
`Nat`/`Int` with explicit range conditions where they matter; `f64` is modelled
symbolically (the bridge never computes with doubles, it only stores them and
produces the three special constants).

Collaborator code that is not part of the provided sources (the `Document`
container, `into_extended_document`, the `extjson` body models, `ObjectId`,
`Decimal128`, the external base64/hex codecs) is modelled from the
specification; each such definition carries a doc comment starting with
`Modelled from the spec:`.
-/

/-- Alias used inside inductive declarations whose constructors shadow `String`. -/
abbrev Str := String

/-- Symbolic model of an `f64`: the three special values the extended-JSON
decoder can produce, plus finite doubles keyed by their bit pattern.  The
bridge only stores doubles, so no arithmetic is needed. -/
inductive F64 where
  | inf
  | negInf
  | nan
  | finite (bits : Nat)
deriving DecidableEq, Repr

/-- The error taxonomy of `crate::de::Error` (§7 of the spec): end of stream,
type mismatch, value mismatch, length mismatch, free text.  The two mismatch
variants carry the rendered unexpected value and the expected description, as
serde's `invalid_type`/`invalid_value` do. -/
inductive DeError where
  | EndOfStream
  | invalidType (unexp exp : String)
  | invalidValue (unexp exp : String)
  | invalidLength (len : Nat) (exp : String)
  | custom (msg : String)
deriving DecidableEq, Repr

/-- `true` exactly on `Except.error`. -/
def isErr {α : Type} : Except DeError α → Bool
  | .error _ => true
  | .ok _ => false

/-! ## Decimal digit strings

Models of Rust's `u64::from_str` / `i64::from_str` family and of `to_string`
on integers, used by the `$number*` marker arms and by
`into_extended_document`. -/

/-- The character for a single decimal digit (codepoint 48 + digit). -/
def digitChar (d : Nat) : Char := Char.ofNat (48 + d)

/-- The value of a decimal digit character. -/
def digitVal (c : Char) : Option Nat :=
  if '0' ≤ c ∧ c ≤ '9' then some (c.toNat - 48) else none

/-- Values of a run of decimal digit characters; `none` if any is not a digit. -/
def charsToDigits : List Char → Option (List Nat)
  | [] => some []
  | c :: rest =>
      match digitVal c, charsToDigits rest with
      | some d, some ds => some (d :: ds)
      | _, _ => none

/-- Most-significant-first accumulation of a digit list. -/
def foldDigits (l : List Nat) : Nat := l.foldl (fun a d => 10 * a + d) 0

/-- A non-empty all-digit character list, read as a natural number. -/
def parseNatDigits (l : List Char) : Option Nat :=
  match l with
  | [] => none
  | _ => (charsToDigits l).map foldDigits

/-- Rust unsigned `from_str`: an optional leading `+`, then one or more
digits; a leading `-` is rejected. -/
def rustParseUnsignedChars (l : List Char) : Option Nat :=
  match l with
  | [] => none
  | c :: rest => if c = '+' then parseNatDigits rest else parseNatDigits l

/-- Rust signed `from_str`: an optional leading `+` or `-`, then digits. -/
def rustParseSignedChars (l : List Char) : Option Int :=
  match l with
  | [] => none
  | c :: rest =>
      if c = '-' then (parseNatDigits rest).map (fun n => -(n : Int))
      else if c = '+' then (parseNatDigits rest).map (fun n => (n : Int))
      else (parseNatDigits l).map (fun n => (n : Int))

/-- `str::parse::<i32>`. -/
def rustParseI32 (s : String) : Option Int :=
  (rustParseSignedChars s.data).bind fun n =>
    if -(2 ^ 31) ≤ n ∧ n < 2 ^ 31 then some n else none

/-- `str::parse::<i64>`. -/
def rustParseI64 (s : String) : Option Int :=
  (rustParseSignedChars s.data).bind fun n =>
    if -(2 ^ 63) ≤ n ∧ n < 2 ^ 63 then some n else none

/-- `str::parse::<u32>`. -/
def rustParseU32 (s : String) : Option Nat :=
  (rustParseUnsignedChars s.data).bind fun n =>
    if n < 2 ^ 32 then some n else none

/-- `str::parse::<u64>`. -/
def rustParseU64 (s : String) : Option Nat :=
  (rustParseUnsignedChars s.data).bind fun n =>
    if n < 2 ^ 64 then some n else none

/-- `Nat`-to-decimal-string, as Rust's `to_string`. -/
def natRepr (n : Nat) : String :=
  if n = 0 then "0" else ⟨(Nat.digits 10 n).reverse.map digitChar⟩

/-- `Int`-to-decimal-string, as Rust's `to_string` on `i64`. -/
def intRepr (m : Int) : String :=
  if m < 0 then "-" ++ natRepr m.natAbs else natRepr m.natAbs

/-! ## Hex (model of the external `hex` codec, a collaborator crate) -/

/-- Lowercase hex digit character ("0123456789abcdef", each by codepoint). -/
def hexDigitChar (d : Nat) : Char :=
  if d < 10 then Char.ofNat (48 + d) else Char.ofNat (87 + d)

/-- Value of a hex digit character (either case accepted, as `hex::decode`). -/
def hexDigitVal (c : Char) : Option Nat :=
  if '0' ≤ c ∧ c ≤ '9' then some (c.toNat - 48)
  else if 'a' ≤ c ∧ c ≤ 'f' then some (c.toNat - 87)
  else if 'A' ≤ c ∧ c ≤ 'F' then some (c.toNat - 55)
  else none

/-- `hex::encode` of a byte list (each byte < 256 becomes two characters). -/
def hexenc : List Nat → List Char
  | [] => []
  | b :: rest => hexDigitChar (b / 16) :: hexDigitChar (b % 16) :: hexenc rest

/-- `hex::decode`: pairs of hex characters to bytes; odd length or a non-hex
character fails. -/
def hexdecChars : List Char → Option (List Nat)
  | [] => some []
  | c1 :: c2 :: rest =>
      match hexDigitVal c1, hexDigitVal c2, hexdecChars rest with
      | some hi, some lo, some bs => some ((16 * hi + lo) :: bs)
      | _, _, _ => none
  | _ => none

/-! ## Base64 (model of the external `base64` codec, a collaborator crate) -/

/-- The standard base64 alphabet, by codepoint ranges: uppercase letters for
0-25, lowercase for 26-51, digits for 52-61, then `+` and `/`. -/
def b64Char (n : Nat) : Char :=
  if n < 26 then Char.ofNat (65 + n)
  else if n < 52 then Char.ofNat (71 + n)
  else if n < 62 then Char.ofNat (n - 4)
  else if n = 62 then '+'
  else '/'

/-- Value of a base64 alphabet character. -/
def b64Val (c : Char) : Option Nat :=
  if 'A' ≤ c ∧ c ≤ 'Z' then some (c.toNat - 65)
  else if 'a' ≤ c ∧ c ≤ 'z' then some (c.toNat - 71)
  else if '0' ≤ c ∧ c ≤ '9' then some (c.toNat + 4)
  else if c = '+' then some 62
  else if c = '/' then some 63
  else none

/-- `base64::encode` with standard alphabet and padding. -/
def b64enc : List Nat → List Char
  | [] => []
  | [a] => [b64Char (a / 4), b64Char (a % 4 * 16), '=', '=']
  | [a, b] => [b64Char (a / 4), b64Char (a % 4 * 16 + b / 16), b64Char (b % 16 * 4), '=']
  | a :: b :: c :: rest =>
      b64Char (a / 4) :: b64Char (a % 4 * 16 + b / 16) ::
      b64Char (b % 16 * 4 + c / 64) :: b64Char (c % 64) :: b64enc rest

/-- `base64::decode` with standard alphabet and padding (strict about
trailing bits, which suffices for round-tripping the strict encoder). -/
def b64dec : List Char → Option (List Nat)
  | [] => some []
  | c1 :: c2 :: c3 :: c4 :: rest =>
      match b64Val c1, b64Val c2 with
      | some d1, some d2 =>
          if c3 = '=' then
            if c4 = '=' ∧ rest = [] ∧ d2 % 16 = 0 then some [d1 * 4 + d2 / 16] else none
          else
            match b64Val c3 with
            | some d3 =>
                if c4 = '=' then
                  if rest = [] ∧ d3 % 4 = 0 then
                    some [d1 * 4 + d2 / 16, d2 % 16 * 16 + d3 / 4]
                  else none
                else
                  match b64Val c4, b64dec rest with
                  | some d4, some bs =>
                      some ((d1 * 4 + d2 / 16) :: (d2 % 16 * 16 + d3 / 4) :: (d3 % 4 * 64 + d4) :: bs)
                  | _, _ => none
            | none => none
      | _, _ => none
  | _ => none

/-! ## The owned value model (`Bson`, §3 of the spec)

The closed tagged union of the crate (the 14 variants listed in §3; binary
subtypes are carried as their byte, with `0` = Generic and `4` = Uuid, since
the `BinarySubtype`/`u8` conversions are byte-bijective).  `Decimal128` is the
opaque 16-byte payload. -/
inductive Bson where
  | Double (v : F64)
  | String (s : Str)
  | Array (elems : List Bson)
  | Document (entries : List (Str × Bson))
  | Boolean (b : Bool)
  | Null
  | Int32 (v : Int)
  | Int64 (v : Int)
  | UInt32 (v : Nat)
  | UInt64 (v : Nat)
  | Binary (subtype : Nat) (bytes : List Nat)
  | DateTime (millis : Int)
  | Timestamp (time increment : Nat)
  | Decimal128 (bytes : List Nat)

mutual

/-- Structural size used as the termination measure of the decoder.  Leaf
payloads count as constants (the decoder never recurses into them); the
variants that are re-expressed as extended-JSON documents get a constant
larger than the measure of their fallback document. -/
def Bson.size : Bson → Nat
  | .Double _ => 1
  | .String _ => 1
  | .Array elems => 2 + Bson.sizeList elems
  | .Document entries => 2 + Bson.sizeDoc entries
  | .Boolean _ => 1
  | .Null => 1
  | .Int32 _ => 1
  | .Int64 _ => 1
  | .UInt32 _ => 1
  | .UInt64 _ => 1
  | .Binary _ _ => 20
  | .DateTime _ => 20
  | .Timestamp _ _ => 20
  | .Decimal128 _ => 20

def Bson.sizeList : List Bson → Nat
  | [] => 0
  | b :: rest => 1 + Bson.size b + Bson.sizeList rest

def Bson.sizeDoc : List (Str × Bson) → Nat
  | [] => 0
  | (_, v) :: rest => 1 + Bson.size v + Bson.sizeDoc rest

end

/-- Modelled from the spec: `Document::insert` of the ordered string-keyed
mapping (§3: insertion order is preserved and semantically significant).  An
existing key is overwritten in place; a new key is appended. -/
def docInsert : List (Str × Bson) → Str → Bson → List (Str × Bson)
  | [], k, v => [(k, v)]
  | (k', v') :: rest, k, v =>
      if k' = k then (k, v) :: rest else (k', v') :: docInsert rest k v

/-- Modelled from the spec: the rendering of an offered value's shape used by
`Bson::as_unexpected` in type-mismatch errors (bson.rs is not in the provided
sources; the spec only requires the message to describe the received shape). -/
def unexpectedOf : Bson → Str
  | .Double _ => "floating point number"
  | .String s => "string \"" ++ s ++ "\""
  | .Array _ => "sequence"
  | .Document _ => "map"
  | .Boolean b => if b then "boolean true" else "boolean false"
  | .Null => "unit value"
  | .Int32 v => "integer " ++ intRepr v
  | .Int64 v => "integer " ++ intRepr v
  | .UInt32 v => "unsigned integer " ++ natRepr v
  | .UInt64 v => "unsigned integer " ++ natRepr v
  | .Binary _ _ => "bytes"
  | .DateTime _ => "datetime"
  | .Timestamp _ _ => "timestamp"
  | .Decimal128 _ => "decimal128"

/-- Modelled from the spec: a rendered form of a value for error messages
(the Display/Debug impls live in the missing bson.rs; only the fact that the
message describes the received value is specified).  Containers are rendered
without their contents. -/
def renderBson (b : Bson) : Str := unexpectedOf b

/-- Modelled from the spec: the Debug rendering of the deserializer's held
`Option<Bson>` used in the UUID-gate error message. -/
def renderOptBson : Option Bson → Str
  | none => "None"
  | some b => "Some(" ++ renderBson b ++ ")"

/-- Modelled from the spec: `Decimal128::deserialize_from_slice` decodes a raw
byte buffer directly to the opaque 128-bit (16-byte) decimal payload (§4.1);
a buffer of any other size is rejected. -/
def Decimal128.deserialize_from_slice (bytes : List Nat) : Except DeError (List Nat) :=
  if bytes.length = 16 then .ok bytes else .error (.custom "expected 16 bytes for a decimal128")

/-- Modelled from the spec: the extended-JSON document for a non-Generic
binary (§4.2/§6): a one-key `$binary` document whose body holds the
base64-encoded bytes and the hex-encoded subtype. -/
def binaryExtDoc (st : Nat) (bytes : List Nat) : List (Str × Bson) :=
  [("$binary", .Document
      [("base64", .String ⟨b64enc bytes⟩), ("subType", .String ⟨hexenc [st]⟩)])]

/-- Modelled from the spec: the extended-JSON document for a timestamp
(§4.1): a one-key `$timestamp` document with the `t`/`i` body. -/
def timestampExtDoc (t i : Nat) : List (Str × Bson) :=
  [("$timestamp", .Document [("t", .UInt32 t), ("i", .UInt32 i)])]

/-- Modelled from the spec: the extended-JSON document for a datetime
(§4.1): a one-key `$date` document with the canonical structured body, the
millisecond count rendered as a `$numberLong` decimal string. -/
def dateTimeExtDoc (ms : Int) : List (Str × Bson) :=
  [("$date", .Document [("$numberLong", .String (intRepr ms))])]

/-- Modelled from the spec: `Bson::into_extended_document` (§4.2), the
canonical one-key extended-JSON re-expression used by the generic-dispatch
fallback.  Only the variants that reach it in `deserialize_any` are
meaningful (non-Generic `Binary`, and the `Timestamp`/`DateTime` catch-all). -/
def intoExtendedDocument : Bson → List (Str × Bson)
  | .Binary st bytes => binaryExtDoc st bytes
  | .Timestamp t i => timestampExtDoc t i
  | .DateTime ms => dateTimeExtDoc ms
  | _ => []

/-! ## Models of the serde target-type deserializers driven by the bridge

These model how the serde impls of `String`, `u32`, `u8`, `ByteBuf` and the
derived `extjson` body structs behave when driven by this crate's
`Deserializer` (all of serde and `extjson::models` are external to the
provided sources; behavior follows the serde visitor protocol and §4.1). -/

/-- `String::deserialize` against the bridge: `deserialize_string` forwards to
`deserialize_any`; only a stored string is accepted.  (serde's string visitor
would also accept a UTF-8 byte buffer; that path is irrelevant here and
omitted.) -/
def stringFromBson : Bson → Except DeError Str
  | .String s => .ok s
  | v => .error (.invalidType (unexpectedOf v) "a string")

/-- `u32::deserialize` against the bridge: the stored integer variant is
offered through `visit_i32`/`visit_i64`/`visit_u32`/`visit_u64` and serde
range-checks it into `u32`. -/
def u32FromBson : Bson → Except DeError Nat
  | .Int32 v => if 0 ≤ v ∧ v < 2 ^ 32 then .ok v.toNat else .error (.invalidValue ("integer " ++ intRepr v) "u32")
  | .Int64 v => if 0 ≤ v ∧ v < 2 ^ 32 then .ok v.toNat else .error (.invalidValue ("integer " ++ intRepr v) "u32")
  | .UInt32 v => .ok v
  | .UInt64 v => if v < 2 ^ 32 then .ok v else .error (.invalidValue ("unsigned integer " ++ natRepr v) "u32")
  | v => .error (.invalidType (unexpectedOf v) "u32")

/-- `u8::deserialize` against the bridge (used for byte-sequence elements). -/
def u8FromBson : Bson → Except DeError Nat
  | .Int32 v => if 0 ≤ v ∧ v < 256 then .ok v.toNat else .error (.invalidValue ("integer " ++ intRepr v) "u8")
  | .Int64 v => if 0 ≤ v ∧ v < 256 then .ok v.toNat else .error (.invalidValue ("integer " ++ intRepr v) "u8")
  | .UInt32 v => if v < 256 then .ok v else .error (.invalidValue ("unsigned integer " ++ natRepr v) "u8")
  | .UInt64 v => if v < 256 then .ok v else .error (.invalidValue ("unsigned integer " ++ natRepr v) "u8")
  | v => .error (.invalidType (unexpectedOf v) "u8")

/-- Elementwise `u8` decoding of a stored array (`ByteBuf` via `visit_seq`). -/
def bytesFromElems : List Bson → Except DeError (List Nat)
  | [] => .ok []
  | b :: rest =>
      match u8FromBson b, bytesFromElems rest with
      | .ok x, .ok xs => .ok (x :: xs)
      | .error e, _ => .error e
      | _, .error e => .error e

/-- `serde_bytes::ByteBuf::deserialize` against the bridge: a Generic binary
arrives through `visit_byte_buf`; an array of integers is accepted through
`visit_seq`; everything else (including the `$binary` fallback map of a
non-Generic binary) is a type error. -/
def byteBufFromBson : Bson → Except DeError (List Nat)
  | .Binary 0 bs => .ok bs
  | .Array elems => bytesFromElems elems
  | .Binary (_ + 1) _ => .error (.invalidType "map" "byte array")
  | v => .error (.invalidType (unexpectedOf v) "byte array")

/-- serde-derive struct deserialization with two fields: entries are consumed
in order, a known field is parsed with its field type (a duplicate is an
error), unknown fields are ignored, and a missing field is an error at the
end.  Models the derived impls of the `extjson` body structs. -/
def parseField2 {α β : Type} (f1 f2 : Str) (p1 : Bson → Except DeError α)
    (p2 : Bson → Except DeError β) :
    List (Str × Bson) → Option α → Option β → Except DeError (α × β)
  | [], acc1, acc2 =>
      match acc1 with
      | none => .error (.custom ("missing field " ++ f1))
      | some a =>
          match acc2 with
          | none => .error (.custom ("missing field " ++ f2))
          | some b => .ok (a, b)
  | (k, v) :: rest, acc1, acc2 =>
      if k = f1 then
        match acc1 with
        | some _ => .error (.custom ("duplicate field " ++ f1))
        | none =>
            match p1 v with
            | .ok a => parseField2 f1 f2 p1 p2 rest (some a) acc2
            | .error e => .error e
      else if k = f2 then
        match acc2 with
        | some _ => .error (.custom ("duplicate field " ++ f2))
        | none =>
            match p2 v with
            | .ok b => parseField2 f1 f2 p1 p2 rest acc1 (some b)
            | .error e => .error e
      else parseField2 f1 f2 p1 p2 rest acc1 acc2

/-- serde-derive struct deserialization with one field; see `parseField2`. -/
def parseField1 {α : Type} (f1 : Str) (p1 : Bson → Except DeError α) :
    List (Str × Bson) → Option α → Except DeError α
  | [], acc1 =>
      match acc1 with
      | none => .error (.custom ("missing field " ++ f1))
      | some a => .ok a
  | (k, v) :: rest, acc1 =>
      if k = f1 then
        match acc1 with
        | some _ => .error (.custom ("duplicate field " ++ f1))
        | none =>
            match p1 v with
            | .ok a => parseField1 f1 p1 rest (some a)
            | .error e => .error e
      else parseField1 f1 p1 rest acc1

/-- Modelled from the spec: the structured `$binary` body (§4.1,
`extjson::models::BinaryBody`): a `base64` string field and a `subType`
hex-string field. -/
def binaryBodyFromBson : Bson → Except DeError (Str × Str)
  | .Document entries => parseField2 "base64" "subType" stringFromBson stringFromBson entries none none
  | v => .error (.invalidType (unexpectedOf v) "a $binary body")

/-- Modelled from the spec: `extjson::models::Binary::parse` — decode the
base64 bytes and the single-byte hex subtype into a `Binary` (§4.1). -/
def extjsonBinaryParse (b64s subs : Str) : Except DeError (Nat × List Nat) :=
  match b64dec b64s.data with
  | none => .error (.custom ("malformed base64 in $binary: " ++ b64s))
  | some bytes =>
      match hexdecChars subs.data with
      | some [st] => .ok (st, bytes)
      | _ => .error (.custom ("expected single-byte hex subtype in $binary: " ++ subs))

/-- Modelled from the spec: the structured `$timestamp` body (§4.1,
`extjson::models::TimestampBody`): `t` and `i` as unsigned 32-bit fields. -/
def timestampBodyFromBson : Bson → Except DeError (Nat × Nat)
  | .Document entries => parseField2 "t" "i" u32FromBson u32FromBson entries none none
  | v => .error (.invalidType (unexpectedOf v) "a $timestamp body")

/-- Modelled from the spec: the structured `$date` body (§4.1,
`extjson::models::DateTimeBody`): the canonical form is a one-key
`$numberLong` document holding the millisecond count as a decimal string. -/
def dateTimeBodyFromBson : Bson → Except DeError Str
  | .Document entries => parseField1 "$numberLong" stringFromBson entries none
  | v => .error (.invalidType (unexpectedOf v) "a $date body")

/-- Modelled from the spec: `extjson::models::DateTime::parse` — the
canonical body string parses as a signed 64-bit millisecond count (§4.1/§6). -/
def extjsonDateTimeParse (s : Str) : Except DeError Int :=
  match rustParseI64 s with
  | some n => .ok n
  | none => .error (.custom ("invalid $date millisecond string: " ++ s))

/-! ## The value-model visitor (`BsonVisitor`, src/de/serde.rs lines 128–413) -/

/-- src/de/serde.rs lines 408–413: despite its name, the helper wraps every
unsigned source value as `Bson::UInt64`. -/
def convert_unsigned_to_signed (value : Nat) : Except DeError Bson :=
  .ok (.UInt64 value)

/-- `BsonVisitor::visit_bool`. -/
def BsonVisitor.visit_bool (value : Bool) : Except DeError Bson := .ok (.Boolean value)

/-- `BsonVisitor::visit_i8` (the Rust source casts `value as i32`, which is
value-preserving; the range condition lives in the claims). -/
def BsonVisitor.visit_i8 (value : Int) : Except DeError Bson := .ok (.Int32 value)

/-- `BsonVisitor::visit_u8`: forwards `value as u64` to
`convert_unsigned_to_signed`. -/
def BsonVisitor.visit_u8 (value : Nat) : Except DeError Bson := convert_unsigned_to_signed value

/-- `BsonVisitor::visit_i16`. -/
def BsonVisitor.visit_i16 (value : Int) : Except DeError Bson := .ok (.Int32 value)

/-- `BsonVisitor::visit_u16`. -/
def BsonVisitor.visit_u16 (value : Nat) : Except DeError Bson := convert_unsigned_to_signed value

/-- `BsonVisitor::visit_i32`. -/
def BsonVisitor.visit_i32 (value : Int) : Except DeError Bson := .ok (.Int32 value)

/-- `BsonVisitor::visit_u32`. -/
def BsonVisitor.visit_u32 (value : Nat) : Except DeError Bson := convert_unsigned_to_signed value

/-- `BsonVisitor::visit_i64`. -/
def BsonVisitor.visit_i64 (value : Int) : Except DeError Bson := .ok (.Int64 value)

/-- `BsonVisitor::visit_u64`. -/
def BsonVisitor.visit_u64 (value : Nat) : Except DeError Bson := convert_unsigned_to_signed value

/-- `BsonVisitor::visit_f64`. -/
def BsonVisitor.visit_f64 (value : F64) : Except DeError Bson := .ok (.Double value)

/-- `BsonVisitor::visit_bytes`/`visit_byte_buf`: raw bytes become a Generic
binary. -/
def BsonVisitor.visit_byte_buf (v : List Nat) : Except DeError Bson :=
  .ok (.Binary 0 v)

/-- One value entry offered to `BsonVisitor::visit_map` by a `MapAccess`
producer: the owned `MapDeserializer` offers a stored `Bson`, while the
`Decimal128Access` adapter offers the raw 16-byte payload. -/
inductive EntryVal where
  | bson (b : Bson)
  | bytes (b : List Nat)

/-- Termination measure of an offered entry value. -/
def EntryVal.size : EntryVal → Nat
  | .bson b => 1 + b.size
  | .bytes _ => 1

/-- Termination measure of an entry list. -/
def entriesSize : List (Str × EntryVal) → Nat
  | [] => 0
  | (_, v) :: rest => v.size + entriesSize rest

/-- Lift the entries of a stored document to the entry values its
`MapDeserializer` offers. -/
def liftDoc (entries : List (Str × Bson)) : List (Str × EntryVal) :=
  entries.map (fun e => (e.1, EntryVal.bson e.2))

theorem EntryVal.size_pos (v : EntryVal) : 1 ≤ v.size := by
  cases v <;> simp [EntryVal.size]

theorem entriesSize_liftDoc (entries : List (Str × Bson)) :
    entriesSize (entries.map (fun e => (e.1, EntryVal.bson e.2))) = Bson.sizeDoc entries := by
  induction entries with
  | nil => rfl
  | cons e rest ih =>
      simp [entriesSize, EntryVal.size, Bson.sizeDoc] at *
      omega

/-- `next_value::<String>()` on an offered entry. -/
def stringParseE : EntryVal → Except DeError Str
  | .bson v => stringFromBson v
  | .bytes _ => .error (.invalidType "bytes" "a string")

/-- `next_value::<ByteBuf>()` on an offered entry (the `Decimal128Access`
adapter offers the payload bytes directly). -/
def byteBufParseE : EntryVal → Except DeError (List Nat)
  | .bson v => byteBufFromBson v
  | .bytes bs => .ok bs

/-- `next_value::<BinaryBody>()` on an offered entry. -/
def binaryBodyParseE : EntryVal → Except DeError (Str × Str)
  | .bson v => binaryBodyFromBson v
  | .bytes _ => .error (.invalidType "bytes" "a $binary body")

/-- `next_value::<TimestampBody>()` on an offered entry. -/
def timestampBodyParseE : EntryVal → Except DeError (Nat × Nat)
  | .bson v => timestampBodyFromBson v
  | .bytes _ => .error (.invalidType "bytes" "a $timestamp body")

/-- `next_value::<DateTimeBody>()` on an offered entry. -/
def dateTimeBodyParseE : EntryVal → Except DeError Str
  | .bson v => dateTimeBodyFromBson v
  | .bytes _ => .error (.invalidType "bytes" "a $date body")

mutual

/-- `Bson::deserialize` = `Deserializer::deserialize_any` driving
`BsonVisitor` (src/de/serde.rs lines 524–582 composed with lines 128–401):
each stored variant is offered to the matching `visit_*`; a Document drives
`visit_map` over its `MapDeserializer`; a Generic binary arrives as raw
bytes; a non-Generic binary, a Timestamp and a DateTime are re-expressed as
their canonical one-key extended-JSON document and driven through the map
path; a Decimal128 is driven through its `Decimal128Access` adapter. -/
def deserializeAny : Bson → Except DeError Bson
  | .Double v => BsonVisitor.visit_f64 v
  | .String s => .ok (.String s)
  | .Array elems => (visitSeq elems).map Bson.Array
  | .Document entries => visitMap (liftDoc entries) []
  | .Boolean b => BsonVisitor.visit_bool b
  | .Null => .ok .Null
  | .Int32 v => BsonVisitor.visit_i32 v
  | .Int64 v => BsonVisitor.visit_i64 v
  | .UInt32 v => BsonVisitor.visit_u32 v
  | .UInt64 v => BsonVisitor.visit_u64 v
  | .Binary 0 bytes => BsonVisitor.visit_byte_buf bytes
  | .Binary (st + 1) bytes => visitMap (liftDoc (intoExtendedDocument (.Binary (st + 1) bytes))) []
  | .Decimal128 d => visitMap [("$numberDecimalBytes", .bytes d)] []
  | .DateTime ms => visitMap (liftDoc (intoExtendedDocument (.DateTime ms))) []
  | .Timestamp t i => visitMap (liftDoc (intoExtendedDocument (.Timestamp t i))) []
termination_by b => b.size
decreasing_by
  all_goals
    simp [Bson.size, entriesSize_liftDoc, Bson.sizeList, Bson.sizeDoc, entriesSize,
      EntryVal.size, liftDoc, intoExtendedDocument, binaryExtDoc, timestampExtDoc,
      dateTimeExtDoc]

/-- `BsonVisitor::visit_map` (src/de/serde.rs lines 257–370): the key loop.
Every key pulled from the producer is matched against the reserved marker
keys; a marker arm decodes its value with the matching seed and returns
immediately; any other key has its value decoded as a `Bson` and inserted
into the accumulated document; an exhausted producer yields the accumulated
ordinary document. -/
def visitMap : List (Str × EntryVal) → List (Str × Bson) → Except DeError Bson
  | [], doc => .ok (.Document doc)
  | (k, ev) :: rest, doc =>
      if k = "$numberInt" then
        match stringParseE ev with
        | .error e => .error e
        | .ok string =>
            match rustParseI32 string with
            | some n => .ok (.Int32 n)
            | none => .error (.invalidValue ("string \"" ++ string ++ "\"") "32-bit signed integer as a string")
      else if k = "$numberLong" then
        match stringParseE ev with
        | .error e => .error e
        | .ok string =>
            match rustParseI64 string with
            | some n => .ok (.Int64 n)
            | none => .error (.invalidValue ("string \"" ++ string ++ "\"") "64-bit signed integer as a string")
      else if k = "$numberUInt32" then
        match stringParseE ev with
        | .error e => .error e
        | .ok string =>
            match rustParseU32 string with
            | some n => .ok (.UInt32 n)
            | none => .error (.invalidValue ("string \"" ++ string ++ "\"") "32-bit unsigned integer as a string")
      else if k = "$numberUInt64" then
        match stringParseE ev with
        | .error e => .error e
        | .ok string =>
            match rustParseU64 string with
            | some n => .ok (.UInt64 n)
            | none => .error (.invalidValue ("string \"" ++ string ++ "\"") "64-bit unsigned integer as a string")
      else if k = "$numberDouble" then
        match stringParseE ev with
        | .error e => .error e
        | .ok string =>
            if string = "Infinity" then .ok (.Double .inf)
            else if string = "-Infinity" then .ok (.Double .negInf)
            else if string = "NaN" then .ok (.Double .nan)
            else
              match rustParseI64 string with
              | some n => .ok (.Int64 n)
              | none => .error (.invalidValue ("string \"" ++ string ++ "\"") "64-bit signed integer as a string")
      else if k = "$binary" then
        match binaryBodyParseE ev with
        | .error e => .error e
        | .ok (b64s, subs) =>
            match extjsonBinaryParse b64s subs with
            | .ok (st, bytes) => .ok (.Binary st bytes)
            | .error e => .error e
      else if k = "$timestamp" then
        match timestampBodyParseE ev with
        | .error e => .error e
        | .ok (t, i) => .ok (.Timestamp t i)
      else if k = "$date" then
        match dateTimeBodyParseE ev with
        | .error e => .error e
        | .ok s =>
            match extjsonDateTimeParse s with
            | .ok n => .ok (.DateTime n)
            | .error e => .error e
      else if k = "$numberDecimal" then
        .error (.custom "deserializing decimal128 values from strings is not currently supported")
      else if k = "$numberDecimalBytes" then
        match byteBufParseE ev with
        | .error e => .error e
        | .ok bs =>
            match Decimal128.deserialize_from_slice bs with
            | .ok d => .ok (.Decimal128 d)
            | .error e => .error e
      else
        match entryToBson ev with
        | .ok v => visitMap rest (docInsert doc k v)
        | .error e => .error e
termination_by entries _ => 1 + entriesSize entries
decreasing_by
  all_goals have hpos := EntryVal.size_pos ev
  all_goals simp [entriesSize]
  all_goals omega

/-- `next_value::<Bson>()` on an offered entry: a stored value is decoded
recursively; the raw payload offered by `Decimal128Access` would arrive
through `visit_bytes` as a Generic binary. -/
def entryToBson : EntryVal → Except DeError Bson
  | .bson b => deserializeAny b
  | .bytes bs => BsonVisitor.visit_byte_buf bs
termination_by ev => ev.size
decreasing_by
  simp [EntryVal.size]

/-- `BsonVisitor::visit_seq` (src/de/serde.rs lines 244–255): every element
is decoded as a `Bson` in order. -/
def visitSeq : List Bson → Except DeError (List Bson)
  | [] => .ok []
  | b :: rest =>
      match deserializeAny b with
      | .error e => .error e
      | .ok v =>
          match visitSeq rest with
          | .error e => .error e
          | .ok vs => .ok (v :: vs)
termination_by elems => 1 + Bson.sizeList elems
decreasing_by
  all_goals simp [Bson.sizeList]
  all_goals omega

end

/-! ## The enum entry of the bridge (src/de/serde.rs lines 606–664) -/

/-- The data handed to `visitor.visit_enum`: the variant name (driven through
a one-shot string sub-bridge) and the payload stored in the
`VariantDeserializer` (`none` for a bare-string unit variant). -/
inductive EnumInput where
  | mk (variant : Str) (payload : Option Bson)

/-- `Deserializer::deserialize_enum` up to the `visit_enum` hand-off: a bare
string is a unit-variant encoding; a stored document must have exactly one
`{variant: payload}` entry; anything else is rejected. -/
def deserialize_enum (value : Option Bson) : Except DeError EnumInput :=
  match value with
  | some (.Document entries) =>
      match entries with
      | [] => .error (.invalidValue "empty document" "variant name")
      | (variant, payload) :: rest =>
          match rest with
          | (k, _) :: _ =>
              .error (.invalidValue "map"
                ("expected map with a single key, got extra key \"" ++ k ++ "\""))
          | [] => .ok (.mk variant (some payload))
  | some (.String variant) => .ok (.mk variant none)
  | some v => .error (.invalidType (unexpectedOf v) "expected an enum")
  | none => .error .EndOfStream

/-! ## The newtype entry and the UUID gate (src/de/serde.rs lines 666–689) -/

/-- Modelled from the spec: the reserved newtype-struct name that marks a
UUID target (`crate::uuid::UUID_NEWTYPE_NAME`; the uuid module is not in the
provided sources, and only the name's reservedness matters). -/
def UUID_NEWTYPE_NAME : Str := "$__bson_private_uuid"

/-- Where `deserialize_newtype_struct` routes the request: `drive` re-enters
`deserialize_any` on the held value; `passThrough` hands the whole
deserializer to `visitor.visit_newtype_struct` untouched. -/
inductive NewtypeRoute where
  | drive (value : Option Bson)
  | passThrough (value : Option Bson)

/-- `Deserializer::deserialize_newtype_struct`: a newtype named as the UUID
marker requires the held value to be a Binary with the Uuid subtype (byte 4)
and then re-enters generic dispatch; any other held value is rejected with a
message rendering what was found; any other name passes through. -/
def deserialize_newtype_struct (name : Str) (value : Option Bson) : Except DeError NewtypeRoute :=
  if name = UUID_NEWTYPE_NAME then
    match value with
    | some (.Binary 4 bs) => .ok (.drive (some (.Binary 4 bs)))
    | b => .error (.custom ("expected Binary with subtype 4, instead got " ++ renderOptBson b))
  else .ok (.passThrough value)

/-! ## The seq/map sub-bridges (src/de/serde.rs lines 811–942)

The `DeserializerOptions` field (a `human_readable` flag consulted only by
leaf types) is omitted from the states: no modelled path reads it. -/

/-- The state of `SeqDeserializer`: the element iterator and the remaining
count. -/
structure SeqDeserializer where
  iter : List Bson
  len : Nat

/-- `SeqAccess::next_element_seed` for `SeqDeserializer` (lines 867–882),
returning the popped element (to be fed to the seed) and the new state. -/
def SeqDeserializer.next_element (s : SeqDeserializer) : Option Bson × SeqDeserializer :=
  match s.iter with
  | [] => (none, s)
  | v :: rest => (some v, { iter := rest, len := s.len - 1 })

/-- `SeqAccess::size_hint` for `SeqDeserializer` (lines 884–886). -/
def SeqDeserializer.size_hint (s : SeqDeserializer) : Option Nat := some s.len

/-- The state of `MapDeserializer`: the entry iterator, the value stashed by
the last key request, and the remaining count. -/
structure MapDeserializer where
  iter : List (Str × Bson)
  value : Option Bson
  len : Nat

/-- `MapAccess::next_key_seed` for `MapDeserializer` (lines 911–928): popping
an entry decrements the count and stashes the value; an exhausted iterator
reports "no more entries" without touching the state.  (The key itself is
driven through a one-off string sub-bridge, which accepts every key.) -/
def MapDeserializer.next_key (m : MapDeserializer) : Option Str × MapDeserializer :=
  match m.iter with
  | [] => (none, m)
  | (k, v) :: rest => (some k, { iter := rest, value := some v, len := m.len - 1 })

/-- `MapAccess::next_value_seed` for `MapDeserializer` (lines 930–937):
takes the stashed value (to be fed to the seed), failing with `EndOfStream`
when none is stashed. -/
def MapDeserializer.next_value (m : MapDeserializer) : Except DeError Bson × MapDeserializer :=
  match m.value with
  | none => (.error .EndOfStream, m)
  | some v => (.ok v, { m with value := none })

/-- `MapAccess::size_hint` for `MapDeserializer` (lines 939–941). -/
def MapDeserializer.size_hint (m : MapDeserializer) : Option Nat := some m.len

/-- The `SeqDeserializer` built by `deserialize_any` for a stored array
(lines 537–544): count = element count. -/
def seqAccessFor (elems : List Bson) : SeqDeserializer :=
  { iter := elems, len := elems.length }

/-- The `MapDeserializer` built by `deserialize_any` for a stored document
(lines 545–553) — the same shape as `MapDeserializer::new` (lines 896–906)
and the variant sub-bridges: count = entry count. -/
def mapAccessFor (entries : List (Str × Bson)) : MapDeserializer :=
  { iter := entries, value := none, len := entries.length }

/-- The `MapDeserializer` built by `deserialize_any` for a non-Generic
binary (lines 564–569): the iterator holds the one-key `$binary` extended
document, and the count is the literal `2` of the source. -/
def binaryFallbackAccess (st : Nat) (bytes : List Nat) : MapDeserializer :=
  { iter := intoExtendedDocument (.Binary st bytes), value := none, len := 2 }

/-- The `MapDeserializer` built by `deserialize_any`'s catch-all fallback
(lines 571–580): count = entry count of the extended document. -/
def extendedFallbackAccess (v : Bson) : MapDeserializer :=
  { iter := intoExtendedDocument v, value := none, len := (intoExtendedDocument v).length }

/-! ## The ObjectId visitor (src/de/serde.rs lines 38–99) -/

/-- Modelled from the spec: `ObjectId::parse_str` accepts exactly a
24-character hex string, producing the 12 raw bytes (§6; the oid module is
not in the provided sources). -/
def ObjectId.parse_str (s : Str) : Option (List Nat) :=
  if s.data.length = 24 then hexdecChars s.data else none

/-- `ObjectIdVisitor::visit_str` (lines 47–58). -/
def ObjectIdVisitor.visit_str (s : Str) : Except DeError (List Nat) :=
  match ObjectId.parse_str s with
  | some oid => .ok oid
  | none => .error (.invalidValue ("string \"" ++ s ++ "\"") "24-character, big-endian hex string")

/-- `ObjectIdVisitor::visit_bytes` (lines 60–69): exactly 12 bytes. -/
def ObjectIdVisitor.visit_bytes (v : List Nat) : Except DeError (List Nat) :=
  if v.length = 12 then .ok v else .error (.invalidLength v.length "12 bytes")

/-- `ObjectIdVisitor::visit_map` (lines 71–85): the map is first decoded
through `BsonVisitor::visit_map`; a failure there propagates, and a success
is unconditionally turned into an error rendering the decoded value. -/
def ObjectIdVisitor.visit_map (entries : List (Str × EntryVal)) : Except DeError (List Nat) :=
  match visitMap entries [] with
  | .ok bson =>
      .error (.custom
        ("expected map containing extended-JSON formatted ObjectId, instead found " ++ renderBson bson))
  | .error e => .error e

/-! ## The raw view and the raw visitor (src/raw/bson.rs) -/

/-- `RawBson`: the borrowed mirror of `Bson` (src/raw/bson.rs lines 21–50).
Borrowed documents/arrays are carried as their underlying encoded byte
slices. -/
inductive RawBsonV where
  | Double (v : F64)
  | String (s : Str)
  | Array (bytes : List Nat)
  | Document (bytes : List Nat)
  | Boolean (b : Bool)
  | Null
  | Int32 (v : Int)
  | Int64 (v : Int)
  | UInt32 (v : Nat)
  | UInt64 (v : Nat)
  | Timestamp (time increment : Nat)
  | Binary (subtype : Nat) (bytes : List Nat)
  | DateTime (millis : Int)
  | Decimal128 (bytes : List Nat)
deriving DecidableEq, Repr

/-- src/de/serde.rs lines 415–420: the raw analogue of
`convert_unsigned_to_signed`. -/
def convert_unsigned_to_signed_raw (value : Nat) : Except DeError RawBsonV :=
  .ok (.UInt64 value)

/-- Modelled from the spec: the reserved internal marker key for a
raw-document target (`crate::raw::RAW_DOCUMENT_NEWTYPE`; raw/mod.rs is not in
the provided sources, and only the name's reservedness matters). -/
def RAW_DOCUMENT_NEWTYPE : Str := "$__private__bson_RawDocument"

/-- Modelled from the spec: the reserved internal marker key for a raw-array
target (`crate::raw::RAW_ARRAY_NEWTYPE`). -/
def RAW_ARRAY_NEWTYPE : Str := "$__private__bson_RawArray"

/-- The 32-bit little-endian integer at the head of an encoded buffer. -/
def readLE32 : List Nat → Option Nat
  | b0 :: b1 :: b2 :: b3 :: _ => some (b0 + 256 * b1 + 65536 * b2 + 16777216 * b3)
  | _ => none

/-- Modelled from the spec: `RawDocument::new` eagerly validates the 4-byte
little-endian length prefix against the buffer size and the trailing zero
terminator (§4.3/§8); the elements are not walked. -/
def RawDocument.new (bytes : List Nat) : Except DeError (List Nat) :=
  match readLE32 bytes with
  | none => .error (.custom "document too short for a length prefix")
  | some len =>
      if len ≠ bytes.length then .error (.custom "document length prefix does not match buffer size")
      else
        match bytes.getLast? with
        | some 0 => .ok bytes
        | _ => .error (.custom "document missing trailing zero terminator")

/-- One value entry offered to `RawBsonVisitor::visit_map` by the raw
deserializer's `MapAccess`: a borrowed byte slice, a plain integer, a
borrowed `$binary` body (bytes + numeric subtype), or a `$timestamp` body. -/
inductive RawEV where
  | bytes (b : List Nat)
  | int (n : Int)
  | binBody (bytes : List Nat) (subtype : Nat)
  | tsBody (t i : Nat)
deriving DecidableEq, Repr

/-- `next_value::<ByteBuf>()` / `next_value::<&[u8]>()` on a raw entry. -/
def rawBytesOf : RawEV → Except DeError (List Nat)
  | .bytes b => .ok b
  | v => .error (.invalidType (toString (repr v)) "borrowed bytes")

/-- `next_value::<i64>()` on a raw entry. -/
def rawI64Of : RawEV → Except DeError Int
  | .int n => .ok n
  | v => .error (.invalidType (toString (repr v)) "i64")

/-- `next_value::<BorrowedBinaryBody>()` on a raw entry. -/
def rawBinBodyOf : RawEV → Except DeError (List Nat × Nat)
  | .binBody bs st => .ok (bs, st)
  | v => .error (.invalidType (toString (repr v)) "a borrowed $binary body")

/-- `next_value::<TimestampBody>()` on a raw entry. -/
def rawTsBodyOf : RawEV → Except DeError (Nat × Nat)
  | .tsBody t i => .ok (t, i)
  | v => .error (.invalidType (toString (repr v)) "a $timestamp body")

/-- `RawBsonVisitor::visit_map` (src/raw/bson.rs lines 295–351): exactly one
key is pulled; an empty map is an error; the restricted marker set is
`$numberDecimalBytes`, `$binary` (borrowed bytes + numeric subtype, no base64
step), `$date` (a plain millisecond integer), `$timestamp`, and the two
internal raw-document/raw-array markers (whose byte slices are revalidated
as raw documents); any other key is a hard error naming the key. -/
def RawBsonVisitor.visit_map : List (Str × RawEV) → Except DeError RawBsonV
  | [] => .error (.custom "expected a key when deserializing RawBson")
  | (k, v) :: _rest =>
      if k = "$numberDecimalBytes" then
        match rawBytesOf v with
        | .error e => .error e
        | .ok bs =>
            match Decimal128.deserialize_from_slice bs with
            | .ok d => .ok (.Decimal128 d)
            | .error e => .error e
      else if k = "$binary" then
        match rawBinBodyOf v with
        | .error e => .error e
        | .ok (bs, st) => .ok (.Binary st bs)
      else if k = "$date" then
        match rawI64Of v with
        | .error e => .error e
        | .ok n => .ok (.DateTime n)
      else if k = "$timestamp" then
        match rawTsBodyOf v with
        | .error e => .error e
        | .ok (t, i) => .ok (.Timestamp t i)
      else if k = RAW_DOCUMENT_NEWTYPE then
        match rawBytesOf v with
        | .error e => .error e
        | .ok bs =>
            match RawDocument.new bs with
            | .ok doc => .ok (.Document doc)
            | .error e => .error e
      else if k = RAW_ARRAY_NEWTYPE then
        match rawBytesOf v with
        | .error e => .error e
        | .ok bs =>
            match RawDocument.new bs with
            | .ok doc => .ok (.Array doc)
            | .error e => .error e
      else .error (.custom ("can\x27t deserialize RawBson from map, key=" ++ k))

/-! ## Round-trip lemmas for the codec models -/

theorem digitVal_digitChar : ∀ d, d < 10 → digitVal (digitChar d) = some d := by decide

theorem digitChar_ne_minus : ∀ d, d < 10 → digitChar d ≠ '-' := by decide

theorem digitChar_ne_plus : ∀ d, d < 10 → digitChar d ≠ '+' := by decide

theorem charsToDigits_map_digitChar (l : List Nat) (h : ∀ d ∈ l, d < 10) :
    charsToDigits (l.map digitChar) = some l := by
  induction l with
  | nil => rfl
  | cons d rest ih =>
      simp only [List.map_cons, charsToDigits,
        digitVal_digitChar d (h d (by simp)), ih (fun x hx => h x (by simp [hx]))]

theorem foldl_digits_reverse (l : List Nat) (acc : Nat) :
    (l.reverse).foldl (fun a d => 10 * a + d) acc = acc * 10 ^ l.length + Nat.ofDigits 10 l := by
  induction l generalizing acc with
  | nil => simp
  | cons d rest ih =>
      simp only [List.reverse_cons, List.foldl_append, List.foldl_cons, List.foldl_nil, ih,
        Nat.ofDigits_cons, List.length_cons, pow_succ]
      ring

theorem foldDigits_digits (n : Nat) :
    foldDigits ((Nat.digits 10 n).reverse) = n := by
  have h := foldl_digits_reverse (Nat.digits 10 n) 0
  simpa [foldDigits, Nat.ofDigits_digits] using h

theorem parseNatDigits_eq (l : List Char) (h : l ≠ []) :
    parseNatDigits l = (charsToDigits l).map foldDigits := by
  cases l with
  | nil => simp at h
  | cons c cs => rfl

theorem digits_reverse_lt (n : Nat) : ∀ d ∈ (Nat.digits 10 n).reverse, d < 10 := by
  intro d hd
  exact Nat.digits_lt_base (by norm_num) (List.mem_reverse.mp hd)

theorem parseNatDigits_natRepr (n : Nat) :
    parseNatDigits (natRepr n).data = some n := by
  by_cases h0 : n = 0
  · subst h0; decide
  · have hne : Nat.digits 10 n ≠ [] := Nat.digits_ne_nil_iff_ne_zero.mpr h0
    have hmapne : ((Nat.digits 10 n).reverse.map digitChar) ≠ [] := by
      simpa using hne
    simp only [natRepr, h0, if_false, ite_false]
    rw [parseNatDigits_eq _ hmapne,
      charsToDigits_map_digitChar _ (digits_reverse_lt n)]
    simp [foldDigits_digits]

theorem natRepr_head_digit (n : Nat) :
    ∃ d cs, d < 10 ∧ (natRepr n).data = digitChar d :: cs := by
  by_cases h0 : n = 0
  · subst h0
    exact ⟨0, [], by norm_num, rfl⟩
  · have hne : Nat.digits 10 n ≠ [] := Nat.digits_ne_nil_iff_ne_zero.mpr h0
    simp only [natRepr, h0, if_false, ite_false]
    cases hL : (Nat.digits 10 n).reverse with
    | nil => exact absurd (by simpa using hL) hne
    | cons d ds =>
        refine ⟨d, ds.map digitChar, ?_, ?_⟩
        · exact digits_reverse_lt n d (by simp [hL])
        · simp [hL]

theorem rustParseSigned_natRepr (n : Nat) :
    rustParseSignedChars (natRepr n).data = some (n : Int) := by
  obtain ⟨d, cs, hd, hdata⟩ := natRepr_head_digit n
  rw [hdata, rustParseSignedChars]
  rw [if_neg (by exact fun hc => digitChar_ne_minus d hd hc),
    if_neg (by exact fun hc => digitChar_ne_plus d hd hc)]
  have := parseNatDigits_natRepr n
  rw [hdata] at this
  simp [this]

theorem rustParseI64_intRepr (m : Int) (h1 : -(2 ^ 63) ≤ m) (h2 : m < 2 ^ 63) :
    rustParseI64 (intRepr m) = some m := by
  by_cases hm : m < 0
  · have hdata : (intRepr m).data = '-' :: (natRepr m.natAbs).data := by
      simp only [intRepr, if_pos hm, String.data_append]
      rfl
    have habs : -((m.natAbs : Nat) : Int) = m := by omega
    simp only [rustParseI64, hdata, rustParseSignedChars, if_pos rfl,
      parseNatDigits_natRepr m.natAbs]
    simp [habs, h1, h2]
    rw [abs_of_neg hm]
    omega
  · have hdata : intRepr m = natRepr m.natAbs := by
      simp only [intRepr, if_neg hm]
    have habs : ((m.natAbs : Nat) : Int) = m := by omega
    simp only [rustParseI64, hdata, rustParseSigned_natRepr m.natAbs]
    simp [habs, h1, h2]
    omega

theorem hexDigitVal_hexDigitChar : ∀ d, d < 16 → hexDigitVal (hexDigitChar d) = some d := by decide

theorem hexdec_hexenc_single (b : Nat) (hb : b < 256) :
    hexdecChars (hexenc [b]) = some [b] := by
  simp only [hexenc, hexdecChars,
    hexDigitVal_hexDigitChar (b / 16) (by omega), hexDigitVal_hexDigitChar (b % 16) (by omega)]
  simp only [Option.some.injEq, List.cons.injEq, and_true]
  omega

theorem b64Val_b64Char : ∀ d, d < 64 → b64Val (b64Char d) = some d := by decide

theorem b64Char_ne_pad : ∀ d, d < 64 → b64Char d ≠ '=' := by decide

theorem b64dec_b64enc : ∀ l : List Nat, (∀ x ∈ l, x < 256) → b64dec (b64enc l) = some l := by
  intro l
  induction l using b64enc.induct with
  | case1 => intro _; rfl
  | case2 a =>
      intro h
      have ha : a < 256 := h a (by simp)
      have h16 : a % 4 * 16 % 16 = 0 := by omega
      simp only [b64enc, b64dec,
        b64Val_b64Char (a / 4) (by omega), b64Val_b64Char (a % 4 * 16) (by omega)]
      simp [h16]
      omega
  | case3 a b =>
      intro h
      have ha : a < 256 := h a (by simp)
      have hb : b < 256 := h b (by simp)
      have h4 : b % 16 * 4 % 4 = 0 := by omega
      simp only [b64enc, b64dec,
        b64Val_b64Char (a / 4) (by omega), b64Val_b64Char (a % 4 * 16 + b / 16) (by omega),
        b64Val_b64Char (b % 16 * 4) (by omega)]
      rw [if_neg (b64Char_ne_pad (b % 16 * 4) (by omega))]
      simp [h4]
      constructor <;> omega
  | case4 a b c rest ih =>
      intro h
      have ha : a < 256 := h a (by simp)
      have hb : b < 256 := h b (by simp)
      have hc : c < 256 := h c (by simp)
      have hrest : ∀ x ∈ rest, x < 256 := fun x hx => h x (by simp [hx])
      simp only [b64enc, b64dec,
        b64Val_b64Char (a / 4) (by omega), b64Val_b64Char (a % 4 * 16 + b / 16) (by omega),
        b64Val_b64Char (b % 16 * 4 + c / 64) (by omega), b64Val_b64Char (c % 64) (by omega)]
      rw [if_neg (b64Char_ne_pad (b % 16 * 4 + c / 64) (by omega)),
        if_neg (b64Char_ne_pad (c % 64) (by omega)), ih hrest]
      simp
      refine ⟨by omega, by omega, by omega⟩

/-! ## Evaluation lemmas for the decoder -/

theorem deserializeAny_binary_roundtrip (st : Nat) (bytes : List Nat)
    (hstpos : st ≠ 0) (hst : st < 256) (hb : ∀ x ∈ bytes, x < 256) :
    deserializeAny (.Binary st bytes) = .ok (.Binary st bytes) := by
  obtain ⟨st', rfl⟩ : ∃ st', st = st' + 1 := ⟨st - 1, by omega⟩
  have hhex : hexdecChars (hexenc [st' + 1]) = some [st' + 1] := hexdec_hexenc_single _ hst
  have hb64 : b64dec (b64enc bytes) = some bytes := b64dec_b64enc bytes hb
  simp [deserializeAny, intoExtendedDocument, binaryExtDoc, liftDoc, visitMap,
    binaryBodyParseE, binaryBodyFromBson, parseField2, stringFromBson,
    extjsonBinaryParse, hb64, hhex]

theorem deserializeAny_timestamp_roundtrip (t i : Nat) :
    deserializeAny (.Timestamp t i) = .ok (.Timestamp t i) := by
  simp [deserializeAny, intoExtendedDocument, timestampExtDoc, liftDoc, visitMap,
    timestampBodyParseE, timestampBodyFromBson, parseField2, u32FromBson]

theorem deserializeAny_datetime_roundtrip (ms : Int)
    (h1 : -(2 ^ 63) ≤ ms) (h2 : ms < 2 ^ 63) :
    deserializeAny (.DateTime ms) = .ok (.DateTime ms) := by
  have hparse := rustParseI64_intRepr ms h1 h2
  simp [deserializeAny, intoExtendedDocument, dateTimeExtDoc, liftDoc, visitMap,
    dateTimeBodyParseE, dateTimeBodyFromBson, parseField1, stringFromBson,
    extjsonDateTimeParse, hparse]

theorem deserializeAny_decimal_roundtrip (d : List Nat) (hlen : d.length = 16) :
    deserializeAny (.Decimal128 d) = .ok (.Decimal128 d) := by
  simp [deserializeAny, visitMap, byteBufParseE, Decimal128.deserialize_from_slice, hlen]

/-- The ten reserved marker keys of `BsonVisitor::visit_map` (§4.1). -/
def isMarkerKey (k : Str) : Bool :=
  k == "$numberInt" || k == "$numberLong" || k == "$numberUInt32" || k == "$numberUInt64" ||
  k == "$numberDouble" || k == "$binary" || k == "$timestamp" || k == "$date" ||
  k == "$numberDecimal" || k == "$numberDecimalBytes"

/-- The value-by-value decoding of a run of map entries through
`next_value::<Bson>()`, keys kept, stopping at the first failure. -/
def decodeEntries : List (Str × EntryVal) → Except DeError (List (Str × Bson))
  | [] => .ok []
  | (k, ev) :: rest =>
      match entryToBson ev with
      | .ok v => (decodeEntries rest).map (fun t => (k, v) :: t)
      | .error e => .error e

/-- Folding a run of decoded entries into an accumulated document by
`Document::insert`. -/
def insertAll (acc : List (Str × Bson)) : List (Str × Bson) → List (Str × Bson)
  | [] => acc
  | (k, v) :: rest => insertAll (docInsert acc k v) rest

theorem isMarkerKey_eq_false_iff (k : Str) :
    isMarkerKey k = false ↔
      k ≠ "$numberInt" ∧ k ≠ "$numberLong" ∧ k ≠ "$numberUInt32" ∧ k ≠ "$numberUInt64" ∧
      k ≠ "$numberDouble" ∧ k ≠ "$binary" ∧ k ≠ "$timestamp" ∧ k ≠ "$date" ∧
      k ≠ "$numberDecimal" ∧ k ≠ "$numberDecimalBytes" := by
  simp [isMarkerKey]
  tauto

theorem visitMap_no_marker (entries : List (Str × EntryVal)) (acc : List (Str × Bson))
    (h : ∀ p ∈ entries, isMarkerKey p.1 = false) :
    visitMap entries acc = (decodeEntries entries).map (fun l => Bson.Document (insertAll acc l)) := by
  induction entries generalizing acc with
  | nil => simp [visitMap, decodeEntries, insertAll, Except.map]
  | cons p rest ih =>
      obtain ⟨k, ev⟩ := p
      have hk := h (k, ev) (by simp)
      rw [show ((k, ev) : Str × EntryVal).1 = k from rfl] at hk
      rw [isMarkerKey_eq_false_iff] at hk
      obtain ⟨h1, h2, h3, h4, h5, h6, h7, h8, h9, h10⟩ := hk
      rw [visitMap]
      rw [if_neg h1, if_neg h2, if_neg h3, if_neg h4, if_neg h5, if_neg h6, if_neg h7,
        if_neg h8, if_neg h9, if_neg h10]
      cases hev : entryToBson ev with
      | error e => simp [decodeEntries, hev, Except.map]
      | ok v =>
          dsimp only
          rw [ih _ (fun p hp => h p (by simp [hp]))]
          simp only [decodeEntries, hev]
          cases decodeEntries rest <;> simp [insertAll, Except.map]

theorem visitMap_marker_first (k : Str) (hk : isMarkerKey k = true) (ev : EntryVal)
    (rest : List (Str × EntryVal)) (acc : List (Str × Bson)) :
    visitMap ((k, ev) :: rest) acc = visitMap [(k, ev)] [] := by
  simp [isMarkerKey] at hk
  rcases hk with ((((((((h | h) | h) | h) | h) | h) | h) | h) | h) | h <;> subst h <;>
    simp [visitMap]

/-! ## The claims -/

/-- `true` exactly when a decode produced an ordinary document. -/
def isOkDocument : Except DeError Bson → Bool
  | .ok (.Document _) => true
  | _ => false

/-- C1 counterexample: the claim says a map whose FIRST key is not a marker
decodes as an ordinary Document accumulating every entry; but on
`{"a": 1, "$numberLong": "42"}` the decoder matches the marker at the second
key and returns `Int64 42`, not a Document. -/
theorem C1_counterexample :
    deserializeAny (.Document [("a", .Int32 1), ("$numberLong", .String "42")]) =
      .ok (.Int64 42) ∧
    isMarkerKey "a" = false ∧
    isOkDocument
      (deserializeAny (.Document [("a", .Int32 1), ("$numberLong", .String "42")])) = false := by
  have h42 : rustParseI64 "42" = some 42 := by decide
  have hmain : deserializeAny (.Document [("a", .Int32 1), ("$numberLong", .String "42")]) =
      .ok (.Int64 42) := by
    simp [deserializeAny, visitMap, liftDoc, entryToBson, stringParseE, stringFromBson, h42,
      BsonVisitor.visit_i32, docInsert]
  exact ⟨hmain, by decide, by rw [hmain]; rfl⟩

/-- C1 (amended): marker keys are resolved at EVERY key, not only the first:
the map decodes as an ordinary Document — with all entries accumulated in
iteration order — exactly when no key is a marker; whenever a marker key is
encountered (first or later), the decoder returns immediately with that
marker's decoded value, inspecting neither the remaining keys nor the
already-accumulated entries. -/
theorem C1_marker_resolution :
    (∀ (entries : List (Str × EntryVal)) (acc : List (Str × Bson)),
        (∀ p ∈ entries, isMarkerKey p.1 = false) →
        visitMap entries acc =
          (decodeEntries entries).map (fun l => Bson.Document (insertAll acc l))) ∧
    (∀ k : Str, isMarkerKey k = true →
        ∀ (ev : EntryVal) (rest : List (Str × EntryVal)) (acc : List (Str × Bson)),
          visitMap ((k, ev) :: rest) acc = visitMap [(k, ev)] []) :=
  ⟨visitMap_no_marker, fun k hk ev rest acc => visitMap_marker_first k hk ev rest acc⟩

theorem C1_marker_resolution_witness :
    visitMap [("a", .bson (.Int32 1))] [] =
      (decodeEntries [("a", .bson (.Int32 1))]).map (fun l => Bson.Document (insertAll [] l)) ∧
    visitMap [("$numberLong", .bson (.String "7")), ("x", .bson .Null)] [] =
      visitMap [("$numberLong", .bson (.String "7"))] [] :=
  ⟨C1_marker_resolution.1 _ _ (by decide),
   C1_marker_resolution.2 "$numberLong" (by decide) _ _ _⟩

/-- C2: for every scalar-variant value that generic dispatch re-expresses as
its canonical one-key extended-JSON fallback document (non-Generic Binary,
Decimal128, Timestamp, DateTime), decoding that fallback document back
through the generic bridge yields an equal value. -/
theorem C2_scalar_fallback_roundtrip :
    (∀ (st : Nat) (bytes : List Nat), st ≠ 0 → st < 256 → (∀ x ∈ bytes, x < 256) →
        deserializeAny (.Binary st bytes) = .ok (.Binary st bytes)) ∧
    (∀ d : List Nat, d.length = 16 → deserializeAny (.Decimal128 d) = .ok (.Decimal128 d)) ∧
    (∀ t i : Nat, deserializeAny (.Timestamp t i) = .ok (.Timestamp t i)) ∧
    (∀ ms : Int, -(2 ^ 63) ≤ ms → ms < 2 ^ 63 →
        deserializeAny (.DateTime ms) = .ok (.DateTime ms)) :=
  ⟨fun st bytes h1 h2 h3 => deserializeAny_binary_roundtrip st bytes h1 h2 h3,
   fun d hd => deserializeAny_decimal_roundtrip d hd,
   fun t i => deserializeAny_timestamp_roundtrip t i,
   fun ms h1 h2 => deserializeAny_datetime_roundtrip ms h1 h2⟩

theorem C2_scalar_fallback_roundtrip_witness :
    deserializeAny (.Binary 4 [1, 2, 255]) = .ok (.Binary 4 [1, 2, 255]) ∧
    deserializeAny (.Decimal128 [0, 1, 2, 3, 4, 5, 6, 7, 8, 9, 10, 11, 12, 13, 14, 15]) =
      .ok (.Decimal128 [0, 1, 2, 3, 4, 5, 6, 7, 8, 9, 10, 11, 12, 13, 14, 15]) ∧
    deserializeAny (.Timestamp 10 3) = .ok (.Timestamp 10 3) ∧
    deserializeAny (.DateTime (-5)) = .ok (.DateTime (-5)) :=
  ⟨C2_scalar_fallback_roundtrip.1 4 [1, 2, 255] (by decide) (by decide) (by decide),
   C2_scalar_fallback_roundtrip.2.1 _ (by decide),
   C2_scalar_fallback_roundtrip.2.2.1 10 3,
   C2_scalar_fallback_roundtrip.2.2.2 (-5) (by decide) (by decide)⟩

/-- C3: the integer-coercion policy of the value-model visitor: every
unsigned source of width 8/16/32/64 bits becomes `Bson::UInt64` with the
same magnitude (never `UInt32` or anything narrower); signed 8/16/32-bit
sources become `Bson::Int32` with the same value; signed 64-bit sources
become `Bson::Int64`. -/
theorem C3_integer_coercion :
    (∀ v : Nat, v < 2 ^ 8 → BsonVisitor.visit_u8 v = .ok (.UInt64 v)) ∧
    (∀ v : Nat, v < 2 ^ 16 → BsonVisitor.visit_u16 v = .ok (.UInt64 v)) ∧
    (∀ v : Nat, v < 2 ^ 32 → BsonVisitor.visit_u32 v = .ok (.UInt64 v)) ∧
    (∀ v : Nat, v < 2 ^ 64 → BsonVisitor.visit_u64 v = .ok (.UInt64 v)) ∧
    (∀ v : Int, -(2 ^ 7) ≤ v → v < 2 ^ 7 → BsonVisitor.visit_i8 v = .ok (.Int32 v)) ∧
    (∀ v : Int, -(2 ^ 15) ≤ v → v < 2 ^ 15 → BsonVisitor.visit_i16 v = .ok (.Int32 v)) ∧
    (∀ v : Int, -(2 ^ 31) ≤ v → v < 2 ^ 31 → BsonVisitor.visit_i32 v = .ok (.Int32 v)) ∧
    (∀ v : Int, -(2 ^ 63) ≤ v → v < 2 ^ 63 → BsonVisitor.visit_i64 v = .ok (.Int64 v)) :=
  ⟨fun _ _ => rfl, fun _ _ => rfl, fun _ _ => rfl, fun _ _ => rfl,
   fun _ _ _ => rfl, fun _ _ _ => rfl, fun _ _ _ => rfl, fun _ _ _ => rfl⟩

theorem C3_integer_coercion_witness :
    BsonVisitor.visit_u8 200 = .ok (.UInt64 200) ∧
    BsonVisitor.visit_u16 60000 = .ok (.UInt64 60000) ∧
    BsonVisitor.visit_u32 4000000000 = .ok (.UInt64 4000000000) ∧
    BsonVisitor.visit_u64 18446744073709551615 = .ok (.UInt64 18446744073709551615) ∧
    BsonVisitor.visit_i8 (-128) = .ok (.Int32 (-128)) ∧
    BsonVisitor.visit_i16 (-32768) = .ok (.Int32 (-32768)) ∧
    BsonVisitor.visit_i32 (-2147483648) = .ok (.Int32 (-2147483648)) ∧
    BsonVisitor.visit_i64 (-9223372036854775808) = .ok (.Int64 (-9223372036854775808)) :=
  ⟨C3_integer_coercion.1 200 (by decide),
   C3_integer_coercion.2.1 60000 (by decide),
   C3_integer_coercion.2.2.1 4000000000 (by decide),
   C3_integer_coercion.2.2.2.1 18446744073709551615 (by decide),
   C3_integer_coercion.2.2.2.2.1 (-128) (by decide) (by decide),
   C3_integer_coercion.2.2.2.2.2.1 (-32768) (by decide) (by decide),
   C3_integer_coercion.2.2.2.2.2.2.1 (-2147483648) (by decide) (by decide),
   C3_integer_coercion.2.2.2.2.2.2.2 (-9223372036854775808) (by decide) (by decide)⟩

/-- C4: a map whose first key is `$numberDouble` with a string value yields
`Double inf`/`Double negInf`/`Double nan` on exactly the strings
`"Infinity"`/`"-Infinity"`/`"NaN"`; every other string is parsed as a signed
64-bit integer and yields `Int64` (never a Double); a string that does not
parse is an InvalidValue error citing the string and the expected format. -/
theorem C4_numberDouble_quirk :
    (∀ rest, visitMap (("$numberDouble", .bson (.String "Infinity")) :: rest) [] =
        .ok (.Double .inf)) ∧
    (∀ rest, visitMap (("$numberDouble", .bson (.String "-Infinity")) :: rest) [] =
        .ok (.Double .negInf)) ∧
    (∀ rest, visitMap (("$numberDouble", .bson (.String "NaN")) :: rest) [] =
        .ok (.Double .nan)) ∧
    (∀ (s : Str) (n : Int) rest, s ≠ "Infinity" → s ≠ "-Infinity" → s ≠ "NaN" →
        rustParseI64 s = some n →
        visitMap (("$numberDouble", .bson (.String s)) :: rest) [] = .ok (.Int64 n)) ∧
    (∀ (s : Str) rest, s ≠ "Infinity" → s ≠ "-Infinity" → s ≠ "NaN" →
        rustParseI64 s = none →
        visitMap (("$numberDouble", .bson (.String s)) :: rest) [] =
          .error (.invalidValue ("string \"" ++ s ++ "\"") "64-bit signed integer as a string")) := by
  refine ⟨?_, ?_, ?_, ?_, ?_⟩
  · intro rest; simp [visitMap, stringParseE, stringFromBson]
  · intro rest; simp [visitMap, stringParseE, stringFromBson]
  · intro rest; simp [visitMap, stringParseE, stringFromBson]
  · intro s n rest h1 h2 h3 hp
    simp [visitMap, stringParseE, stringFromBson, h1, h2, h3, hp]
  · intro s rest h1 h2 h3 hp
    simp [visitMap, stringParseE, stringFromBson, h1, h2, h3, hp]

theorem C4_numberDouble_quirk_witness :
    visitMap [("$numberDouble", .bson (.String "Infinity"))] [] = .ok (.Double .inf) ∧
    visitMap [("$numberDouble", .bson (.String "-Infinity"))] [] = .ok (.Double .negInf) ∧
    visitMap [("$numberDouble", .bson (.String "NaN"))] [] = .ok (.Double .nan) ∧
    visitMap [("$numberDouble", .bson (.String "3"))] [] = .ok (.Int64 3) ∧
    visitMap [("$numberDouble", .bson (.String "3.5"))] [] =
      .error (.invalidValue ("string \"" ++ "3.5" ++ "\"") "64-bit signed integer as a string") :=
  ⟨C4_numberDouble_quirk.1 [],
   C4_numberDouble_quirk.2.1 [],
   C4_numberDouble_quirk.2.2.1 [],
   C4_numberDouble_quirk.2.2.2.1 "3" 3 [] (by decide) (by decide) (by decide) (by decide),
   C4_numberDouble_quirk.2.2.2.2 "3.5" [] (by decide) (by decide) (by decide) (by decide)⟩

/-- C5: enum decoding entry-count discipline on a stored document: exactly
one entry is accepted as the externally tagged `{variant: payload}`
encoding; zero entries is a hard error; more than one entry is a hard error
whose message names the second key. -/
theorem C5_enum_entry_count :
    (∀ (variant : Str) (payload : Bson),
        deserialize_enum (some (.Document [(variant, payload)])) =
          .ok (.mk variant (some payload))) ∧
    deserialize_enum (some (.Document [])) =
      .error (.invalidValue "empty document" "variant name") ∧
    (∀ (variant : Str) (payload : Bson) (k2 : Str) (v2 : Bson) (rest : List (Str × Bson)),
        deserialize_enum (some (.Document ((variant, payload) :: (k2, v2) :: rest))) =
          .error (.invalidValue "map"
            ("expected map with a single key, got extra key \"" ++ k2 ++ "\""))) :=
  ⟨fun _ _ => rfl, rfl, fun _ _ _ _ _ => rfl⟩

/-- C6: map sub-bridge cursor discipline: requesting a value when no key has
been requested since the last value (including two consecutive
value-requests) fails with `EndOfStream`; requesting a key after exhaustion
returns "no more entries" (`none`, through an `Ok`-typed channel), not an
error. -/
theorem C6_map_cursor_discipline :
    (∀ m : MapDeserializer, m.value = none → m.next_value = (.error .EndOfStream, m)) ∧
    (∀ m : MapDeserializer, ((m.next_value.2).next_value).1 = .error .EndOfStream) ∧
    (∀ m : MapDeserializer, m.iter = [] → m.next_key = (none, m)) := by
  refine ⟨?_, ?_, ?_⟩
  · intro m h
    unfold MapDeserializer.next_value
    rw [h]
  · intro m
    obtain ⟨it, v, n⟩ := m
    cases v <;> simp [MapDeserializer.next_value]
  · intro m h
    unfold MapDeserializer.next_key
    rw [h]

theorem C6_map_cursor_discipline_witness :
    MapDeserializer.next_value ⟨[("k", .Null)], none, 1⟩ =
      (.error .EndOfStream, ⟨[("k", .Null)], none, 1⟩) ∧
    ((MapDeserializer.next_value ⟨[], some .Null, 0⟩).2).next_value.1 = .error .EndOfStream ∧
    MapDeserializer.next_key ⟨[], some .Null, 0⟩ = (none, ⟨[], some .Null, 0⟩) :=
  ⟨C6_map_cursor_discipline.1 ⟨[("k", .Null)], none, 1⟩ rfl,
   C6_map_cursor_discipline.2.1 ⟨[], some .Null, 0⟩,
   C6_map_cursor_discipline.2.2 ⟨[], some .Null, 0⟩ rfl⟩

/-- C7: the UUID newtype gate: a newtype named as the UUID marker proceeds
(re-entering generic dispatch, whose decode recovers exactly the stored raw
bytes) only when the stored value is a Binary with the Uuid subtype; any
other stored value fails with an error describing what was found; a newtype
with any other name passes through transparently with the stored value
untouched. -/
theorem C7_uuid_newtype_gate :
    (∀ bs : List Nat, deserialize_newtype_struct UUID_NEWTYPE_NAME (some (.Binary 4 bs)) =
        .ok (.drive (some (.Binary 4 bs)))) ∧
    (∀ bs : List Nat, (∀ x ∈ bs, x < 256) →
        deserializeAny (.Binary 4 bs) = .ok (.Binary 4 bs)) ∧
    (∀ v : Option Bson, (∀ bs : List Nat, v ≠ some (.Binary 4 bs)) →
        deserialize_newtype_struct UUID_NEWTYPE_NAME v =
          .error (.custom ("expected Binary with subtype 4, instead got " ++ renderOptBson v))) ∧
    (∀ (name : Str) (v : Option Bson), name ≠ UUID_NEWTYPE_NAME →
        deserialize_newtype_struct name v = .ok (.passThrough v)) := by
  refine ⟨?_, ?_, ?_, ?_⟩
  · intro bs; simp [deserialize_newtype_struct]
  · intro bs h
    exact deserializeAny_binary_roundtrip 4 bs (by decide) (by decide) h
  · intro v hv
    unfold deserialize_newtype_struct
    rw [if_pos rfl]
    split
    · next bs => exact absurd rfl (hv bs)
    · rfl
  · intro name v h
    simp [deserialize_newtype_struct, h]

theorem C7_uuid_newtype_gate_witness :
    deserialize_newtype_struct UUID_NEWTYPE_NAME (some (.Binary 4 [7])) =
      .ok (.drive (some (.Binary 4 [7]))) ∧
    deserializeAny (.Binary 4 [7]) = .ok (.Binary 4 [7]) ∧
    deserialize_newtype_struct UUID_NEWTYPE_NAME (some .Null) =
      .error (.custom ("expected Binary with subtype 4, instead got " ++ renderOptBson (some .Null))) ∧
    deserialize_newtype_struct "Wrapper" (some .Null) = .ok (.passThrough (some .Null)) :=
  ⟨C7_uuid_newtype_gate.1 [7],
   C7_uuid_newtype_gate.2.1 [7] (by decide),
   C7_uuid_newtype_gate.2.2.1 (some .Null) (fun bs h => Bson.noConfusion (Option.some.inj h)),
   C7_uuid_newtype_gate.2.2.2 "Wrapper" (some .Null) (by decide)⟩

/-- C8: the raw visitor's restricted marker set: only the first key is
examined; an empty map is an error; only `$numberDecimalBytes`, `$binary`,
`$date` (whose value is a plain millisecond integer), `$timestamp` and the
two internal raw-document/raw-array markers are accepted; any other first
key is a hard Custom error naming the key — raw decoding never falls back to
accumulating a generic map. -/
theorem C8_raw_restricted_markers :
    RawBsonVisitor.visit_map [] =
      .error (.custom "expected a key when deserializing RawBson") ∧
    (∀ (k : Str) (v : RawEV) (rest rest' : List (Str × RawEV)),
        RawBsonVisitor.visit_map ((k, v) :: rest) = RawBsonVisitor.visit_map ((k, v) :: rest')) ∧
    (∀ (k : Str) (v : RawEV) (rest : List (Str × RawEV)),
        k ≠ "$numberDecimalBytes" → k ≠ "$binary" → k ≠ "$date" → k ≠ "$timestamp" →
        k ≠ RAW_DOCUMENT_NEWTYPE → k ≠ RAW_ARRAY_NEWTYPE →
        RawBsonVisitor.visit_map ((k, v) :: rest) =
          .error (.custom ("can\x27t deserialize RawBson from map, key=" ++ k))) ∧
    (∀ bs rest, bs.length = 16 →
        RawBsonVisitor.visit_map (("$numberDecimalBytes", .bytes bs) :: rest) =
          .ok (.Decimal128 bs)) ∧
    (∀ bs st rest,
        RawBsonVisitor.visit_map (("$binary", .binBody bs st) :: rest) = .ok (.Binary st bs)) ∧
    (∀ (n : Int) rest,
        RawBsonVisitor.visit_map (("$date", .int n) :: rest) = .ok (.DateTime n)) ∧
    (∀ t i rest,
        RawBsonVisitor.visit_map (("$timestamp", .tsBody t i) :: rest) = .ok (.Timestamp t i)) ∧
    (∀ bs rest, RawDocument.new bs = .ok bs →
        RawBsonVisitor.visit_map ((RAW_DOCUMENT_NEWTYPE, .bytes bs) :: rest) =
          .ok (.Document bs)) ∧
    (∀ bs rest, RawDocument.new bs = .ok bs →
        RawBsonVisitor.visit_map ((RAW_ARRAY_NEWTYPE, .bytes bs) :: rest) = .ok (.Array bs)) := by
  refine ⟨rfl, ?_, ?_, ?_, ?_, ?_, ?_, ?_, ?_⟩
  · intro k v rest rest'; rfl
  · intro k v rest h1 h2 h3 h4 h5 h6
    simp only [RawBsonVisitor.visit_map]
    rw [if_neg h1, if_neg h2, if_neg h3, if_neg h4, if_neg h5, if_neg h6]
  · intro bs rest h
    simp [RawBsonVisitor.visit_map, rawBytesOf, Decimal128.deserialize_from_slice, h]
  · intro bs st rest
    simp [RawBsonVisitor.visit_map, rawBinBodyOf]
  · intro n rest
    simp [RawBsonVisitor.visit_map, rawI64Of]
  · intro t i rest
    simp [RawBsonVisitor.visit_map, rawTsBodyOf]
  · intro bs rest h
    simp [RawBsonVisitor.visit_map, RAW_DOCUMENT_NEWTYPE, rawBytesOf, h]
  · intro bs rest h
    simp [RawBsonVisitor.visit_map, RAW_DOCUMENT_NEWTYPE, RAW_ARRAY_NEWTYPE, rawBytesOf, h]

theorem C8_raw_restricted_markers_witness :
    RawBsonVisitor.visit_map [("$oid", .bytes [1]), ("x", .int 0)] =
      .error (.custom ("can\x27t deserialize RawBson from map, key=" ++ "$oid")) ∧
    RawBsonVisitor.visit_map
        [("$numberDecimalBytes", .bytes [0, 1, 2, 3, 4, 5, 6, 7, 8, 9, 10, 11, 12, 13, 14, 15])] =
      .ok (.Decimal128 [0, 1, 2, 3, 4, 5, 6, 7, 8, 9, 10, 11, 12, 13, 14, 15]) ∧
    RawBsonVisitor.visit_map [("$date", .int 1000)] = .ok (.DateTime 1000) ∧
    RawBsonVisitor.visit_map [(RAW_DOCUMENT_NEWTYPE, .bytes [5, 0, 0, 0, 0])] =
      .ok (.Document [5, 0, 0, 0, 0]) :=
  ⟨C8_raw_restricted_markers.2.2.1 "$oid" (.bytes [1]) [("x", .int 0)]
      (by decide) (by decide) (by decide) (by decide)
      (by simp [RAW_DOCUMENT_NEWTYPE]) (by simp [RAW_ARRAY_NEWTYPE]),
   C8_raw_restricted_markers.2.2.2.1 _ [] (by decide),
   C8_raw_restricted_markers.2.2.2.2.2.1 1000 [],
   C8_raw_restricted_markers.2.2.2.2.2.2.2.1 [5, 0, 0, 0, 0] [] rfl⟩

/-- C9 counterexample: the map sub-bridge that `deserialize_any` builds for
the non-Generic Binary extended-JSON fallback is constructed with remaining
count 2 although its iterator holds the single-entry `$binary` document, so
already at construction the count differs from the number of entries not yet
popped and the size hint over-reports the remaining entries. -/
theorem C9_counterexample :
    (binaryFallbackAccess 4 []).size_hint = some 2 ∧
    (binaryFallbackAccess 4 []).iter.length = 1 ∧
    (binaryFallbackAccess 4 []).len ≠ (binaryFallbackAccess 4 []).iter.length := by
  refine ⟨rfl, ?_, ?_⟩ <;>
    simp [binaryFallbackAccess, intoExtendedDocument, binaryExtDoc, MapDeserializer.size_hint]

/-- C9 (amended): for every seq/map sub-bridge whose initial count equals its
entry count — the array and document sub-bridges, the catch-all
extended-document fallback, and (by the shared shape) the variant
sub-bridges — the count always equals the number of entries not yet popped,
each pop decrements it by exactly 1, the cursor is terminal exactly when the
count is 0, and the size hint reported at any point equals the count; the
one exception is the non-Generic Binary fallback, whose map sub-bridge
starts with count 2 over a one-entry iterator. -/
theorem C9_iteration_invariant :
    (∀ elems : List Bson, (seqAccessFor elems).len = (seqAccessFor elems).iter.length) ∧
    (∀ entries : List (Str × Bson), (mapAccessFor entries).len = (mapAccessFor entries).iter.length) ∧
    (∀ v : Bson, (extendedFallbackAccess v).len = (extendedFallbackAccess v).iter.length) ∧
    (∀ s : SeqDeserializer, s.size_hint = some s.len) ∧
    (∀ s : SeqDeserializer, s.len = s.iter.length →
        ((s.next_element.2).len = (s.next_element.2).iter.length ∧
         (s.next_element.1 = none ↔ s.len = 0) ∧
         (∀ v rest, s.iter = v :: rest →
            s.next_element = (some v, { iter := rest, len := s.len - 1 })))) ∧
    (∀ m : MapDeserializer, m.size_hint = some m.len) ∧
    (∀ m : MapDeserializer, m.len = m.iter.length →
        ((m.next_key.2).len = (m.next_key.2).iter.length ∧
         (m.next_key.1 = none ↔ m.len = 0) ∧
         (∀ k v rest, m.iter = (k, v) :: rest →
            m.next_key = (some k, { iter := rest, value := some v, len := m.len - 1 })))) ∧
    (∀ (st : Nat) (bytes : List Nat),
        (binaryFallbackAccess st bytes).len = 2 ∧
        (binaryFallbackAccess st bytes).iter.length = 1) := by
  refine ⟨fun _ => rfl, fun _ => rfl, fun _ => rfl, fun _ => rfl, ?_, fun _ => rfl, ?_, ?_⟩
  · intro s h
    obtain ⟨iter, len⟩ := s
    cases iter with
    | nil =>
        simp [SeqDeserializer.next_element] at *
        omega
    | cons v rest =>
        simp [SeqDeserializer.next_element] at *
        omega
  · intro m h
    obtain ⟨iter, value, len⟩ := m
    cases iter with
    | nil =>
        simp [MapDeserializer.next_key] at *
        omega
    | cons e rest =>
        obtain ⟨k, v⟩ := e
        simp [MapDeserializer.next_key] at *
        omega
  · intro st bytes
    exact ⟨rfl, by simp [binaryFallbackAccess, intoExtendedDocument, binaryExtDoc]⟩

theorem C9_iteration_invariant_witness :
    ((seqAccessFor [.Null]).next_element.2).len =
      ((seqAccessFor [.Null]).next_element.2).iter.length ∧
    ((mapAccessFor [("k", .Null)]).next_key.2).len =
      ((mapAccessFor [("k", .Null)]).next_key.2).iter.length :=
  ⟨(C9_iteration_invariant.2.2.2.2.1 (seqAccessFor [.Null]) rfl).1,
   (C9_iteration_invariant.2.2.2.2.2.2.1 (mapAccessFor [("k", .Null)]) rfl).1⟩

/-- C10: deserializing an ObjectId from a map always fails — the map visitor
unconditionally errors (propagating a decode failure or rejecting the
decoded value) — and an ObjectId is produced only from a 24-character hex
string via `visit_str` or exactly 12 raw bytes via `visit_bytes`. -/
theorem C10_objectid_from_map_fails :
    (∀ entries : List (Str × EntryVal), isErr (ObjectIdVisitor.visit_map entries) = true) ∧
    (∀ s : Str, (∃ oid, ObjectIdVisitor.visit_str s = .ok oid) ↔
        (ObjectId.parse_str s).isSome = true) ∧
    (∀ s : Str, (ObjectId.parse_str s).isSome = true ↔
        (s.data.length = 24 ∧ (hexdecChars s.data).isSome = true)) ∧
    (∀ v : List Nat, v.length = 12 → ObjectIdVisitor.visit_bytes v = .ok v) ∧
    (∀ (v : List Nat) (oid : List Nat),
        ObjectIdVisitor.visit_bytes v = .ok oid → v.length = 12 ∧ oid = v) := by
  refine ⟨?_, ?_, ?_, ?_, ?_⟩
  · intro entries
    cases h : visitMap entries [] <;> simp [ObjectIdVisitor.visit_map, h, isErr]
  · intro s
    cases h : ObjectId.parse_str s <;> simp [ObjectIdVisitor.visit_str, h]
  · intro s
    unfold ObjectId.parse_str
    by_cases h24 : s.data.length = 24
    · rw [if_pos h24]
      simp [h24]
    · rw [if_neg h24]
      constructor
      · intro hcontra
        simp at hcontra
      · rintro ⟨hlen, _⟩
        exact absurd hlen h24
  · intro v h
    simp [ObjectIdVisitor.visit_bytes, h]
  · intro v oid h
    unfold ObjectIdVisitor.visit_bytes at h
    by_cases h12 : v.length = 12
    · rw [if_pos h12] at h
      exact ⟨h12, (Except.ok.inj h).symm⟩
    · rw [if_neg h12] at h
      exact absurd h (by simp)

theorem C10_objectid_from_map_fails_witness :
    isErr (ObjectIdVisitor.visit_map [("$oid", .bson (.String "x"))]) = true ∧
    ObjectIdVisitor.visit_bytes [0, 1, 2, 3, 4, 5, 6, 7, 8, 9, 10, 11] =
      .ok [0, 1, 2, 3, 4, 5, 6, 7, 8, 9, 10, 11] ∧
    ((ObjectId.parse_str "0123456789abcdef01234567").isSome = true ↔
      ("0123456789abcdef01234567".data.length = 24 ∧
        (hexdecChars "0123456789abcdef01234567".data).isSome = true)) :=
  ⟨C10_objectid_from_map_fails.1 _,
   C10_objectid_from_map_fails.2.2.2.1 _ (by decide),
   C10_objectid_from_map_fails.2.2.1 "0123456789abcdef01234567"⟩
